import Mathlib

/-!
Verification of the Full-stack-open blog API and front-end components.

The repository ships the backend's supertest suite (src/unnamed/part_001),
a presentational React list component (src/unnamed/part_000), and the
Redux-connected AnecdoteForm (src/part6/.../AnecdoteForm.js).  The blog
route handlers and the notification action creator are not among the
provided sources, so they are modelled from the spec (sections 3, 4.2, 4.3,
7, 8); each such definition's doc comment says so.  The two front-end
components are embedded directly from their source files.
-/

namespace BlogApi

/-- A JSON-like value, used to model the serialized HTTP response bodies. -/
inductive Val where
  | str : String → Val
  | num : Nat → Val
  | obj : List (String × Val) → Val

/-- A stored blog post.  Modelled from the spec: "Blog post: {id, title,
author, url, likes (default 0), owning user reference}".  `iid` is the
internal storage identifier (Mongo's `_id`); serialization exposes it under
the key `id` and never under `_id`. -/
structure StoredBlog where
  iid : Nat
  title : String
  author : String
  url : String
  likes : Nat
  userRef : Nat
deriving DecidableEq

/-- A stored user account.  Modelled from the spec: "User: {id, username
(unique), name, passwordHash, list of owned blog-post references}"; only the
fields the blog surface serializes are carried. -/
structure User where
  iid : Nat
  username : String
  name : String
deriving DecidableEq

/-- The document store: the blog collection, the user collection, and the
next fresh internal identifier. -/
structure DB where
  blogs : List StoredBlog
  users : List User
  nextId : Nat
deriving DecidableEq

/-- A bearer token.  Modelled from the spec: "Token: opaque signed string
encoding {username, id, expiry}"; here the signature check is modelled by
comparing `sig` with the server's secret. -/
structure Token where
  userId : Nat
  sig : Nat
deriving DecidableEq

/-- Modelled from the spec: `verify(token)` "decodes and checks
signature/expiry; fails with Unauthorized if missing, malformed, or
expired."  Returns the token's user id exactly when a token is present and
correctly signed. -/
def verifyToken (secret : Nat) (tok : Option Token) : Option Nat :=
  match tok with
  | none => none
  | some t => if t.sig = secret then some t.userId else none

/-- The JSON body of a POST /blogs request; absent fields are `none`. -/
structure PostBody where
  title : Option String
  author : Option String
  url : Option String
  likes : Option Nat
deriving DecidableEq

/-- Result of a mutating request: HTTP status plus the database afterwards. -/
structure MutResult where
  status : Nat
  db : DB
deriving DecidableEq

/-- Modelled from the spec: "`POST /blogs` → requires valid bearer token;
body must include `title` and `url` (fails `BadRequest`/400 otherwise);
`likes` defaults to 0 if absent; associates post with token's user; returns
201 + created post" and "Missing/invalid token on a protected route → 401
before touching the repository." -/
def postBlogs (secret : Nat) (db : DB) (tok : Option Token) (body : PostBody) : MutResult :=
  match verifyToken secret tok with
  | none => ⟨401, db⟩
  | some uid =>
    match body.title, body.url with
    | some t, some u =>
      let blog : StoredBlog :=
        ⟨db.nextId, t, body.author.getD "", u, body.likes.getD 0, uid⟩
      ⟨201, ⟨db.blogs ++ [blog], db.users, db.nextId + 1⟩⟩
    | _, _ => ⟨400, db⟩

/-- Modelled from the spec: "`DELETE /blogs/:id` → requires valid bearer
token; removes post by id; returns 204 regardless of whether the id existed
(idempotent delete)" and "Missing/invalid token on a protected route → 401
before touching the repository." -/
def deleteBlogs (secret : Nat) (db : DB) (tok : Option Token) (id : Nat) : MutResult :=
  match verifyToken secret tok with
  | none => ⟨401, db⟩
  | some _ => ⟨204, ⟨db.blogs.filter (fun b => b.iid ≠ id), db.users, db.nextId⟩⟩

/-- Look a user up by internal id in the user collection. -/
def findUser (users : List User) (uid : Nat) : Option User :=
  users.find? (fun u => u.iid = uid)

/-- Modelled from the spec: the creator summary {username, name, id} carried
on each listed post; the identifier is exposed under the key `id`. -/
def userJSON (u : User) : List (String × Val) :=
  [("username", Val.str u.username), ("name", Val.str u.name), ("id", Val.num u.iid)]

/-- Modelled from the spec: serialization of a stored blog post.  The
internal storage identifier is exposed under the key `id` (never `_id`), and
the post is "augmented with creator's {username, name, id}" when the owning
user exists. -/
def blogJSON (users : List User) (b : StoredBlog) : List (String × Val) :=
  [("id", Val.num b.iid), ("title", Val.str b.title), ("author", Val.str b.author),
   ("url", Val.str b.url), ("likes", Val.num b.likes)] ++
  (match findUser users b.userRef with
   | some u => [("user", Val.obj (userJSON u))]
   | none => [])

/-- An HTTP response carrying a JSON array of objects. -/
structure GetResponse where
  status : Nat
  contentType : String
  body : List (List (String × Val))

/-- Modelled from the spec: "`GET /blogs` → list all posts, each augmented
with creator's {username, name, id}. No auth required. 200 always (empty
list if none)."  The token argument is ignored: no authentication is
checked. -/
def getBlogs (db : DB) (_tok : Option Token) : GetResponse :=
  ⟨200, "application/json", db.blogs.map (blogJSON db.users)⟩

/-- Result of a PUT request: status, the database afterwards, and the
serialized updated post if one was found. -/
structure PutResult where
  status : Nat
  db : DB
  body : Option (List (String × Val))

/-- Modelled from the spec: "`PUT /blogs/:id` → replaces mutable fields
(notably `likes`); returns 200 + updated post; no ownership check enforced
(any request may update any post's likes)."  The token argument is ignored:
no authentication or ownership is checked.  The spec leaves a nonexistent id
unspecified; it is modelled as 200 with no body and an unchanged store. -/
def putBlogs (db : DB) (_tok : Option Token) (id : Nat) (newLikes : Nat) : PutResult :=
  match db.blogs.find? (fun b => b.iid = id) with
  | some b =>
    let blogs2 := db.blogs.map (fun x => if x.iid = id then { x with likes := newLikes } else x)
    ⟨200, ⟨blogs2, db.users, db.nextId⟩, some (blogJSON db.users { b with likes := newLikes })⟩
  | none => ⟨200, db, none⟩

end BlogApi

namespace Frontend

/-- An entity rendered by the Persons list component (src/unnamed/part_000);
the component only reads its `id` (as the React key) and passes the record
through whole. -/
structure Person where
  id : Nat
  name : String
deriving DecidableEq

/-- A child element produced by the Persons component: a Person element with
its React `key`, the entity, and the delete callback props. -/
structure PersonChild (α : Type) where
  key : Nat
  person : Person
  deletePerson : α

/-- The Persons presentational component (src/unnamed/part_000): maps the
`persons` prop to one Person child per entity, keyed by `person.id`, each
given the `deletePerson` callback prop.  It is a pure function of its two
props: it touches no store and performs no mutation. -/
def Persons {α : Type} (persons : List Person) (deletePerson : α) : List (PersonChild α) :=
  persons.map (fun person => ⟨person.id, person, deletePerson⟩)

/-- Notification actions.  Modelled from the spec: "Actions: ...
set-notification, clear-notification." -/
inductive NAction where
  | set (text : String)
  | clear
deriving DecidableEq

/-- Modelled from the spec: the notification reducer, a "pure function
old-state+action → new-state".  Its type shows it yields only the new state:
it can schedule nothing. -/
def notificationReducer (_state : Option String) (a : NAction) : Option String :=
  match a with
  | NAction.set t => some t
  | NAction.clear => none

/-- An effect emitted by running a thunk action creator: dispatch an action
immediately, or schedule a dispatch to run after a delay. -/
inductive Effect where
  | dispatchNow (a : NAction)
  | dispatchAfter (delay : Nat) (a : NAction)
deriving DecidableEq

/-- Modelled from the spec: "Notification auto-clears after a fixed delay
via a scheduled callback dispatched from the action creator, not the
reducer."  The creator dispatches set-notification at once and schedules a
clear-notification dispatch after the given delay. -/
def showNotification (text : String) (delay : Nat) : List Effect :=
  [Effect.dispatchNow (NAction.set text), Effect.dispatchAfter delay NAction.clear]

/-- Run a thunk's effects: immediate dispatches update the state through the
reducer now; scheduled ones are collected as pending (delay, action) timers. -/
def runEffects (s : Option String) : List Effect → Option String × List (Nat × NAction)
  | [] => (s, [])
  | Effect.dispatchNow a :: rest => runEffects (notificationReducer s a) rest
  | Effect.dispatchAfter d a :: rest =>
    let p := runEffects s rest
    (p.1, (d, a) :: p.2)

/-- Fire the pending timers in order, each dispatching its action through
the reducer. -/
def firePending (s : Option String) (pend : List (Nat × NAction)) : Option String :=
  pend.foldl (fun st p => notificationReducer st p.2) s

/-- The form-submission event seen by the AnecdoteForm handler: the value of
the `newAnecdote` input and whether the default was prevented. -/
structure FormEvent where
  newAnecdoteValue : String
  defaultPrevented : Bool
deriving DecidableEq

/-- A dispatch performed by the AnecdoteForm handler through its connected
props. -/
inductive DispatchedCall where
  | anecdoteToAdd (content : String)
  | showNotification (content : String) (time : Nat)
deriving DecidableEq

/-- The outcome of running the submit handler: the event afterwards and the
dispatches it made, in order. -/
structure HandlerResult where
  event : FormEvent
  dispatched : List DispatchedCall
deriving DecidableEq

/-- The submit handler of AnecdoteForm
(src/part6/redux-anecdotes/src/components/AnecdoteForm.js): prevents the
default, reads `event.target.newAnecdote.value`, clears the input, then
dispatches `anecdoteToAdd(content)` and `showNotification(content, 5)`.
No validation is performed on the value. -/
def addAnecdote (ev : FormEvent) : HandlerResult :=
  let ev1 : FormEvent := { ev with defaultPrevented := true }
  let content := ev1.newAnecdoteValue
  let ev2 : FormEvent := { ev1 with newAnecdoteValue := "" }
  ⟨ev2, [DispatchedCall.anecdoteToAdd content, DispatchedCall.showNotification content 5]⟩

/-- Modelled from the spec: the add-entity action appends a new entity
record holding the dispatched content to the store's ordered list; the
notification dispatch does not touch the anecdote list. -/
def applyAdd (anecdotes : List String) : DispatchedCall → List String
  | DispatchedCall.anecdoteToAdd c => anecdotes ++ [c]
  | DispatchedCall.showNotification _ _ => anecdotes

end Frontend

namespace BlogApi

/-- C1: `POST /blogs` without a valid bearer token (missing or invalid, i.e.
`verifyToken` rejects it) returns 401 and leaves the stored blog collection
unchanged, so its size is the same and no new title appears. -/
theorem postBlogs_no_token_401 (secret : Nat) (db : DB) (tok : Option Token)
    (body : PostBody) (h : verifyToken secret tok = none) :
    (postBlogs secret db tok body).status = 401 ∧
    (postBlogs secret db tok body).db.blogs = db.blogs ∧
    (postBlogs secret db tok body).db.blogs.length = db.blogs.length := by
  unfold postBlogs
  rw [h]
  exact ⟨rfl, rfl, rfl⟩

/-- Witness for C1: a concrete unauthenticated POST (no token at all)
returns 401 and leaves the collection as it was. -/
theorem postBlogs_no_token_401_witness :
    (postBlogs 7 ⟨[⟨1, "a", "b", "c", 0, 1⟩], [⟨1, "root", "adminko"⟩], 2⟩
       none ⟨some "Test blog entry without token", some "Yuri", some "localhost", some 340⟩).status = 401 ∧
    (postBlogs 7 ⟨[⟨1, "a", "b", "c", 0, 1⟩], [⟨1, "root", "adminko"⟩], 2⟩
       none ⟨some "Test blog entry without token", some "Yuri", some "localhost", some 340⟩).db.blogs
      = [⟨1, "a", "b", "c", 0, 1⟩] := by
  have h := postBlogs_no_token_401 7 ⟨[⟨1, "a", "b", "c", 0, 1⟩], [⟨1, "root", "adminko"⟩], 2⟩
    none ⟨some "Test blog entry without token", some "Yuri", some "localhost", some 340⟩ (by decide)
  exact ⟨h.1, h.2.1⟩

/-- C2: with a valid bearer token, a POST /blogs body lacking `title` or
`url` returns 400 and leaves the stored collection unchanged. -/
theorem postBlogs_missing_fields_400 (secret : Nat) (db : DB) (tok : Option Token)
    (body : PostBody) (uid : Nat) (hv : verifyToken secret tok = some uid)
    (hm : body.title = none ∨ body.url = none) :
    (postBlogs secret db tok body).status = 400 ∧
    (postBlogs secret db tok body).db.blogs = db.blogs := by
  unfold postBlogs
  rw [hv]
  rcases hm with h | h <;> rw [h]
  · exact ⟨rfl, rfl⟩
  · cases ht : body.title
    · exact ⟨rfl, rfl⟩
    · exact ⟨rfl, rfl⟩

/-- Witness for C2: a body with only author and likes, sent with a correctly
signed token, yields 400 and the one seeded blog is still the whole
collection. -/
theorem postBlogs_missing_fields_400_witness :
    (postBlogs 7 ⟨[⟨1, "a", "b", "c", 0, 1⟩], [⟨1, "root", "adminko"⟩], 2⟩
       (some ⟨1, 7⟩) ⟨none, some "Yuri", none, some 350⟩).status = 400 ∧
    (postBlogs 7 ⟨[⟨1, "a", "b", "c", 0, 1⟩], [⟨1, "root", "adminko"⟩], 2⟩
       (some ⟨1, 7⟩) ⟨none, some "Yuri", none, some 350⟩).db.blogs
      = [⟨1, "a", "b", "c", 0, 1⟩] :=
  postBlogs_missing_fields_400 7 ⟨[⟨1, "a", "b", "c", 0, 1⟩], [⟨1, "root", "adminko"⟩], 2⟩
    (some ⟨1, 7⟩) ⟨none, some "Yuri", none, some 350⟩ 1 (by decide) (Or.inl rfl)

/-- C3: with a valid bearer token and `title` and `url` present but `likes`
absent, POST /blogs returns 201, the collection grows by exactly the new
post, and the stored post's `likes` is 0 (and it carries the given title and
the token's user). -/
theorem postBlogs_default_likes (secret : Nat) (db : DB) (tok : Option Token)
    (body : PostBody) (uid : Nat) (t u : String)
    (hv : verifyToken secret tok = some uid)
    (ht : body.title = some t) (hu : body.url = some u)
    (hl : body.likes = none) :
    (postBlogs secret db tok body).status = 201 ∧
    (postBlogs secret db tok body).db.blogs
      = db.blogs ++ [⟨db.nextId, t, body.author.getD "", u, 0, uid⟩] ∧
    (postBlogs secret db tok body).db.blogs.length = db.blogs.length + 1 := by
  unfold postBlogs
  rw [hv, ht, hu, hl]
  refine ⟨rfl, rfl, ?_⟩
  simp

/-- Witness for C3: a body with title, author and url but no likes, sent
with a correctly signed token, yields 201 and appends a post whose likes are
0. -/
theorem postBlogs_default_likes_witness :
    (postBlogs 7 ⟨[⟨1, "a", "b", "c", 5, 1⟩], [⟨1, "root", "adminko"⟩], 2⟩
       (some ⟨1, 7⟩) ⟨some "Test blog entry2", some "Yuri", some "localhost", none⟩).status = 201 ∧
    (postBlogs 7 ⟨[⟨1, "a", "b", "c", 5, 1⟩], [⟨1, "root", "adminko"⟩], 2⟩
       (some ⟨1, 7⟩) ⟨some "Test blog entry2", some "Yuri", some "localhost", none⟩).db.blogs
      = [⟨1, "a", "b", "c", 5, 1⟩, ⟨2, "Test blog entry2", "Yuri", "localhost", 0, 1⟩] := by
  have h := postBlogs_default_likes 7 ⟨[⟨1, "a", "b", "c", 5, 1⟩], [⟨1, "root", "adminko"⟩], 2⟩
    (some ⟨1, 7⟩) ⟨some "Test blog entry2", some "Yuri", some "localhost", none⟩ 1
    "Test blog entry2" "localhost" (by decide) rfl rfl rfl
  exact ⟨h.1, h.2.1⟩

/-- Removing the one post carrying a given internal id (ids being unique in
the collection) shrinks the collection by exactly one. -/
lemma filter_ne_length_of_mem (l : List StoredBlog) (id : Nat)
    (hnd : (l.map StoredBlog.iid).Nodup) (b : StoredBlog)
    (hb : b ∈ l) (hid : b.iid = id) :
    (l.filter (fun x => x.iid ≠ id)).length + 1 = l.length := by
  induction l with
  | nil => cases hb
  | cons a t ih =>
    rw [List.map_cons, List.nodup_cons] at hnd
    rcases List.mem_cons.mp hb with rfl | hbt
    · have ht : t.filter (fun x => x.iid ≠ id) = t := by
        apply List.filter_eq_self.mpr
        intro x hx
        simp only [ne_eq, decide_eq_true_eq]
        intro hxid
        exact hnd.1 (hid ▸ hxid ▸ List.mem_map_of_mem StoredBlog.iid hx)
      simp only [List.filter_cons]
      rw [if_neg (by simp [hid])]
      rw [ht]
      simp
    · by_cases ha : a.iid = id
      · exact absurd (ha ▸ hid ▸ List.mem_map_of_mem StoredBlog.iid hbt) hnd.1
      · have h := ih hnd.2 hbt
        have hd : decide (a.iid ≠ id) = true := by simpa using ha
        simp only [List.filter_cons]
        rw [if_pos hd]
        simp only [List.length_cons]
        omega

/-- C4 (amended): with a valid bearer token and unique internal ids,
DELETE /blogs/:id always returns 204; when the id exists the collection
shrinks by exactly one, no post with that id remains, and the deleted post's
title disappears from listings whenever no other post shares it; when the id
does not exist the collection is unchanged. -/
theorem deleteBlogs_spec (secret : Nat) (db : DB) (tok : Option Token) (id uid : Nat)
    (hv : verifyToken secret tok = some uid)
    (hnd : (db.blogs.map StoredBlog.iid).Nodup) :
    (deleteBlogs secret db tok id).status = 204 ∧
    (∀ b, b ∈ db.blogs → b.iid = id →
      (deleteBlogs secret db tok id).db.blogs.length + 1 = db.blogs.length ∧
      (∀ c ∈ (deleteBlogs secret db tok id).db.blogs, c.iid ≠ id) ∧
      ((∀ c ∈ db.blogs, c.title = b.title → c.iid = id) →
        b.title ∉ (deleteBlogs secret db tok id).db.blogs.map StoredBlog.title)) ∧
    ((∀ b ∈ db.blogs, b.iid ≠ id) →
      (deleteBlogs secret db tok id).db.blogs = db.blogs) := by
  unfold deleteBlogs
  rw [hv]
  refine ⟨rfl, ?_, ?_⟩
  · intro b hb hid
    refine ⟨filter_ne_length_of_mem db.blogs id hnd b hb hid, ?_, ?_⟩
    · intro c hc
      have := List.of_mem_filter hc
      simpa using this
    · intro huniq hmem
      rcases List.mem_map.mp hmem with ⟨c, hcf, hct⟩
      have hcl : c ∈ db.blogs := List.mem_of_mem_filter hcf
      have hcne : c.iid ≠ id := by simpa using List.of_mem_filter hcf
      exact hcne (huniq c hcl hct)
  · intro h
    show db.blogs.filter (fun x => x.iid ≠ id) = db.blogs
    apply List.filter_eq_self.mpr
    intro x hx
    simpa using h x hx

/-- Witness for C4 (amended): deleting the existing id 1 from a two-post
collection with a correctly signed token returns 204 and leaves exactly one
post, none carrying id 1. -/
theorem deleteBlogs_spec_witness :
    (deleteBlogs 7 ⟨[⟨1, "X", "A", "U", 0, 1⟩, ⟨2, "Y", "B", "V", 3, 1⟩],
        [⟨1, "root", "adminko"⟩], 3⟩ (some ⟨1, 7⟩) 1).status = 204 ∧
    (deleteBlogs 7 ⟨[⟨1, "X", "A", "U", 0, 1⟩, ⟨2, "Y", "B", "V", 3, 1⟩],
        [⟨1, "root", "adminko"⟩], 3⟩ (some ⟨1, 7⟩) 1).db.blogs.length + 1 = 2 := by
  have h := deleteBlogs_spec 7 ⟨[⟨1, "X", "A", "U", 0, 1⟩, ⟨2, "Y", "B", "V", 3, 1⟩],
      [⟨1, "root", "adminko"⟩], 3⟩ (some ⟨1, 7⟩) 1 1 (by decide) (by decide)
  exact ⟨h.1, (h.2.1 ⟨1, "X", "A", "U", 0, 1⟩ (List.mem_cons_self _ _) rfl).1⟩

/-- Counterexample to C4 as stated: with a valid token, deleting the
existing id 1 from a collection holding two distinct posts that share the
title "T" returns 204 and shrinks the collection by one, yet the deleted
post's title "T" still appears in the listing. -/
theorem deleteBlogs_title_counterexample :
    (deleteBlogs 7 ⟨[⟨1, "T", "A1", "U1", 0, 1⟩, ⟨2, "T", "A2", "U2", 0, 1⟩],
        [⟨1, "root", "adminko"⟩], 3⟩ (some ⟨1, 7⟩) 1).status = 204 ∧
    (deleteBlogs 7 ⟨[⟨1, "T", "A1", "U1", 0, 1⟩, ⟨2, "T", "A2", "U2", 0, 1⟩],
        [⟨1, "root", "adminko"⟩], 3⟩ (some ⟨1, 7⟩) 1).db.blogs.length = 1 ∧
    "T" ∈ (deleteBlogs 7 ⟨[⟨1, "T", "A1", "U1", 0, 1⟩, ⟨2, "T", "A2", "U2", 0, 1⟩],
        [⟨1, "root", "adminko"⟩], 3⟩ (some ⟨1, 7⟩) 1).db.blogs.map StoredBlog.title := by
  refine ⟨rfl, ?_, ?_⟩
  · simp [deleteBlogs, verifyToken]
  · simp [deleteBlogs, verifyToken]

/-- C5: PUT /blogs/:id on an existing id returns 200 with the serialized
updated post, the result is the same whether or not any Authorization header
(token) is sent, and the new likes value is visible in a subsequent GET
listing entry carrying that id. -/
theorem putBlogs_updates_likes (db : DB) (tok : Option Token) (id newLikes : Nat)
    (b : StoredBlog) (hf : db.blogs.find? (fun x => x.iid = id) = some b) :
    (putBlogs db tok id newLikes).status = 200 ∧
    (putBlogs db tok id newLikes).body
      = some (blogJSON db.users { b with likes := newLikes }) ∧
    putBlogs db tok id newLikes = putBlogs db none id newLikes ∧
    (∃ e ∈ (getBlogs (putBlogs db tok id newLikes).db none).body,
      ("id", Val.num id) ∈ e ∧ ("likes", Val.num newLikes) ∈ e) := by
  have hb : b ∈ db.blogs := List.mem_of_find?_eq_some hf
  have hbid : b.iid = id := by simpa using List.find?_some hf
  refine ⟨?_, ?_, rfl, ?_⟩
  · unfold putBlogs
    rw [hf]
  · unfold putBlogs
    rw [hf]
  · refine ⟨blogJSON db.users { b with likes := newLikes }, ?_, ?_, ?_⟩
    · unfold putBlogs
      rw [hf]
      show blogJSON db.users { b with likes := newLikes }
        ∈ (db.blogs.map fun x => if x.iid = id then { x with likes := newLikes } else x).map
            (blogJSON db.users)
      apply List.mem_map_of_mem
      have : (if b.iid = id then { b with likes := newLikes } else b)
          = { b with likes := newLikes } := by rw [if_pos hbid]
      exact this ▸ List.mem_map_of_mem _ hb
    · simp [blogJSON, hbid]
    · simp [blogJSON]

/-- Witness for C5: updating the likes of the existing post with id 1 to 666
without any token returns 200 and the listing shows likes 666. -/
theorem putBlogs_updates_likes_witness :
    (putBlogs ⟨[⟨1, "X", "A", "U", 5, 1⟩], [⟨1, "root", "adminko"⟩], 2⟩ none 1 666).status = 200 ∧
    (∃ e ∈ (getBlogs (putBlogs ⟨[⟨1, "X", "A", "U", 5, 1⟩], [⟨1, "root", "adminko"⟩], 2⟩
        none 1 666).db none).body,
      ("id", Val.num 1) ∈ e ∧ ("likes", Val.num 666) ∈ e) := by
  have h := putBlogs_updates_likes ⟨[⟨1, "X", "A", "U", 5, 1⟩], [⟨1, "root", "adminko"⟩], 2⟩
    none 1 666 ⟨1, "X", "A", "U", 5, 1⟩ (by simp [List.find?])
  exact ⟨h.1, h.2.2.2⟩

/-- C6: every entity returned by GET /blogs carries the externally visible
identifier under the key `id` (always present), the key `_id` never occurs,
the value under `id` is exactly the serialized storage identifier, and the
same holds of the nested creator summary. -/
theorem id_field_invariant (db : DB) (tok : Option Token) :
    (∀ e ∈ (getBlogs db tok).body,
      "_id" ∉ e.map Prod.fst ∧ (List.lookup "id" e).isSome) ∧
    (∀ b ∈ db.blogs, List.lookup "id" (blogJSON db.users b) = some (Val.num b.iid)) ∧
    (∀ u : User, "_id" ∉ (userJSON u).map Prod.fst ∧
      List.lookup "id" (userJSON u) = some (Val.num u.iid)) := by
  refine ⟨?_, ?_, ?_⟩
  · intro e he
    rcases List.mem_map.mp he with ⟨b, _, rfl⟩
    constructor
    · cases hfu : findUser db.users b.userRef <;> simp [blogJSON, userJSON, hfu]
    · simp [blogJSON, List.lookup]
  · intro b _
    simp [blogJSON, List.lookup]
  · intro u
    constructor
    · simp [userJSON]
    · simp [userJSON, List.lookup]

/-- Witness for C6: a concrete listed post exposes its storage identifier 1
under the key `id` and has no `_id` key. -/
theorem id_field_invariant_witness :
    "_id" ∉ (blogJSON [⟨1, "root", "adminko"⟩] ⟨1, "X", "A", "U", 0, 1⟩).map Prod.fst ∧
    List.lookup "id" (blogJSON [⟨1, "root", "adminko"⟩] ⟨1, "X", "A", "U", 0, 1⟩)
      = some (Val.num 1) := by
  have h := id_field_invariant ⟨[⟨1, "X", "A", "U", 0, 1⟩], [⟨1, "root", "adminko"⟩], 2⟩ none
  exact ⟨(h.1 (blogJSON [⟨1, "root", "adminko"⟩] ⟨1, "X", "A", "U", 0, 1⟩)
            (by simp [getBlogs])).1,
         h.2.1 ⟨1, "X", "A", "U", 0, 1⟩ (List.mem_cons_self _ _)⟩

/-- C7: GET /blogs ignores authentication (same answer with or without a
token) and always returns 200 with content type application/json and the
full serialized list of stored posts — the empty list when none exist —
where each post whose creator exists carries the creator's
{username, name, id} under the key `user`. -/
theorem getBlogs_spec (db : DB) (tok : Option Token) :
    (getBlogs db tok).status = 200 ∧
    (getBlogs db tok).contentType = "application/json" ∧
    getBlogs db tok = getBlogs db none ∧
    (getBlogs db tok).body = db.blogs.map (blogJSON db.users) ∧
    (getBlogs db tok).body.length = db.blogs.length ∧
    (∀ b ∈ db.blogs, ∀ u, findUser db.users b.userRef = some u →
      ("user", Val.obj (userJSON u)) ∈ blogJSON db.users b) := by
  refine ⟨rfl, rfl, rfl, rfl, by simp [getBlogs], ?_⟩
  intro b _ u hu
  simp [blogJSON, hu]

/-- Witness for C7: a concrete one-post store lists with status 200 and the
post carries its creator summary under the key `user`. -/
theorem getBlogs_spec_witness :
    (getBlogs ⟨[⟨1, "X", "A", "U", 0, 1⟩], [⟨1, "root", "adminko"⟩], 2⟩ none).status = 200 ∧
    ("user", Val.obj (userJSON ⟨1, "root", "adminko"⟩))
      ∈ blogJSON [⟨1, "root", "adminko"⟩] ⟨1, "X", "A", "U", 0, 1⟩ := by
  have h := getBlogs_spec ⟨[⟨1, "X", "A", "U", 0, 1⟩], [⟨1, "root", "adminko"⟩], 2⟩ none
  exact ⟨h.1, h.2.2.2.2.2 ⟨1, "X", "A", "U", 0, 1⟩ (List.mem_cons_self _ _)
    ⟨1, "root", "adminko"⟩ (by simp [findUser, List.find?])⟩

end BlogApi

namespace Frontend

/-- C8: the Persons component renders exactly one child per entity — the
i-th child is exactly the Person element built from the i-th entity: keyed
by that entity's id, given the entity and the deletePerson callback prop it
received.  Being a plain Lean function of its two props, it reads no store
and performs no mutation. -/
theorem Persons_spec {α : Type} (ps : List Person) (cb : α) :
    (Persons ps cb).length = ps.length ∧
    ∀ i : Nat, (Persons ps cb)[i]?
      = (ps[i]?).map (fun p => (⟨p.id, p, cb⟩ : PersonChild α)) := by
  constructor
  · simp [Persons]
  · intro i
    simp [Persons]

/-- C9: dispatching showNotification sets the notification text at once,
schedules exactly one callback at the fixed delay, and that scheduled
callback — emitted by the action creator, while the reducer by its type
returns only a new state and can emit nothing — clears the notification
when it fires. -/
theorem notification_autoclear (s : Option String) (text : String) (d : Nat) :
    (runEffects s (showNotification text d)).1 = some text ∧
    (runEffects s (showNotification text d)).2 = [(d, NAction.clear)] ∧
    Effect.dispatchAfter d NAction.clear ∈ showNotification text d ∧
    firePending (runEffects s (showNotification text d)).1
      (runEffects s (showNotification text d)).2 = none := by
  refine ⟨rfl, rfl, ?_, rfl⟩
  simp [showNotification]

/-- C10: for every submission of the anecdote form — the empty input value
included, since no validation is performed — the handler clears the input,
prevents the default, and dispatches exactly anecdoteToAdd with the read
value followed by showNotification with the same value and the fixed
duration 5; applying the dispatches to any store appends an anecdote holding
that value (an empty anecdote on empty submission). -/
theorem addAnecdote_spec (ev : FormEvent) (anecdotes : List String) :
    (addAnecdote ev).event.newAnecdoteValue = "" ∧
    (addAnecdote ev).event.defaultPrevented = true ∧
    (addAnecdote ev).dispatched
      = [DispatchedCall.anecdoteToAdd ev.newAnecdoteValue,
         DispatchedCall.showNotification ev.newAnecdoteValue 5] ∧
    (addAnecdote ev).dispatched.foldl applyAdd anecdotes
      = anecdotes ++ [ev.newAnecdoteValue] := by
  exact ⟨rfl, rfl, rfl, rfl⟩

end Frontend
